import Mathlib

/-!
OpenWeedLocator: verification of the detection-to-actuation pipeline.

Shallow embedding of the lane mapping, activation policy, segmentation
post-processing, vegetation-index dispatch, learned-detector processing and
the actuation scheduler of the OpenWeedLocator repository
(`src/owl.py`, `src/greenonbrown.py`, `src/utils/greenongreen.py`),
together with theorems settling the specification's claims about them.

Conventions: Python `int()` is modelled as truncation toward zero on `ℚ`
(float arithmetic is modelled exactly as rational arithmetic); images are
lists of pixel rows; in-place buffer mutation is modelled by explicit value
passing that mirrors which buffer object each call site hands over
(`frame` versus `frame.copy()`).  Leaf vegetation-index formulas live in
`utils/algorithms.py`, which is not part of the sources under scrutiny, so
the dispatch is parametric in them.
-/

namespace Owl

/-- Python `int()` on a float value, modelled on `ℚ`: truncation toward zero. -/
def pyInt (q : ℚ) : ℤ := if 0 ≤ q then ⌊q⌋ else -⌊-q⌋

/-! ## Lane mapping (`owl.py` lines 176-180, 285-304; `greenonbrown.py` lines 282-301)

`_setup_lane_coordinates` computes `lane_width = frame_width / relay_num`
(Python true division, modelled on `ℚ`) and
`lane_coords[i] = int(i * lane_width)`.  In `Owl.hoot` the spray decision
tests `lane_start <= centre_x < lane_start + lane_width` for each relay `i`
(`owl.py` lines 297-301), while the legacy script tests
`int(laneCoords[i]) <= centre[0] < int(laneCoords[i] + laneWidth)`
(`greenonbrown.py` lines 296-298). -/

/-- Embeds `self.lane_width = self.frame_width / self.relay_num` (`owl.py` line 179):
Python float division, modelled exactly on `ℚ`. -/
def laneWidth (W N : ℕ) : ℚ := (W : ℚ) / (N : ℚ)

/-- Embeds `self.lane_coords[i] = int(i * self.lane_width)` (`owl.py` line 180):
`int()` of a non-negative float is the floor. -/
def laneCoord (W N i : ℕ) : ℕ := Int.toNat ⌊(i : ℚ) * laneWidth W N⌋

/-- The per-lane spray test of `owl.py` lines 298-301:
`lane_start <= centre_x < lane_start + self.lane_width`, where
`lane_start = lane_coords_int[i]` is an integer and `self.lane_width` a float. -/
def owlLaneMatch (W N x i : ℕ) : Bool :=
  decide (laneCoord W N i ≤ x) && decide ((x : ℚ) < (laneCoord W N i : ℚ) + laneWidth W N)

/-- Embeds `int(self.laneCoords[i] + laneWidth)` of `greenonbrown.py` line 298. -/
def gbLaneEnd (W N i : ℕ) : ℕ := Int.toNat ⌊(laneCoord W N i : ℚ) + laneWidth W N⌋

/-- The per-lane spray test of `greenonbrown.py` line 298:
`int(self.laneCoords[i]) <= centre[0] < int(self.laneCoords[i] + laneWidth)`. -/
def gbLaneMatch (W N x i : ℕ) : Bool :=
  decide (laneCoord W N i ≤ x) && decide (x < gbLaneEnd W N i)

/-- The relay indices fired for one centroid x-coordinate by `owl.py`
lines 297-304: the loop over `range(self.relay_num)` has no `break`, so every
lane whose test passes receives a job. -/
def owlFiredLanes (W N x : ℕ) : List ℕ :=
  (List.range N).filter (fun i => owlLaneMatch W N x i)

/-- The nozzle indices fired for one centroid x-coordinate by
`greenonbrown.py` lines 296-301. -/
def gbFiredLanes (W N x : ℕ) : List ℕ :=
  (List.range N).filter (fun i => gbLaneMatch W N x i)

/-! ## Activation policy (`owl.py` lines 292-304; `greenonbrown.py` lines 292-301)

A centroid `centre` triggers spray jobs only when `centre[1] > self.yAct`;
when it does, a job is submitted for every lane whose test passes. -/

/-- Relay indices submitted for one centroid by `owl.py` lines 292-304:
nothing when `centre[1] <= self.yAct`, else all matching lanes. -/
def owlSubmissionsForCentre (W N yAct : ℕ) (c : ℕ × ℕ) : List ℕ :=
  if yAct < c.2 then owlFiredLanes W N c.1 else []

/-- All relay submissions of one `owl.py` cycle, in centre order
(lines 292-304 loop over `weed_centres`). -/
def owlSubmissions (W N yAct : ℕ) (centres : List (ℕ × ℕ)) : List ℕ :=
  centres.flatMap (owlSubmissionsForCentre W N yAct)

/-- Nozzle indices submitted for one centroid by `greenonbrown.py`
lines 292-301. -/
def gbSubmissionsForCentre (W N yAct : ℕ) (c : ℕ × ℕ) : List ℕ :=
  if yAct < c.2 then gbFiredLanes W N c.1 else []

/-- All nozzle submissions of one `greenonbrown.py` cycle, in centre order. -/
def gbSubmissions (W N yAct : ℕ) (centres : List (ℕ × ℕ)) : List ℕ :=
  centres.flatMap (gbSubmissionsForCentre W N yAct)

/-! ## Images and box drawing

An image is a list of pixel rows, each pixel a BGR triple.
`cv2.rectangle(image, (sx, sy), (ex, ey), colour, 2)` is an external OpenCV
call that paints the axis-aligned box border onto the buffer in place; the
model paints the border pixels (the claims about it concern only whether the
buffer changes, not the exact set of painted pixels, so border thickness is
modelled as one pixel and the companion `cv2.putText` label is not painted). -/

abbrev Pixel : Type := ℕ × ℕ × ℕ

abbrev Image : Type := List (List Pixel)

/-- Whether integer pixel coordinates lie on the border of the axis-aligned
box with corners `(sx, sy)` and `(ex, ey)`. -/
def onBorder (sx sy ex ey x y : ℤ) : Bool :=
  decide (sx ≤ x) && decide (x ≤ ex) && decide (sy ≤ y) && decide (y ≤ ey) &&
    (decide (x = sx) || decide (x = ex) || decide (y = sy) || decide (y = ey))

/-- Model of `cv2.rectangle(image, (sx, sy), (ex, ey), colour, 2)`:
paint the box border onto the buffer. -/
def drawRectBorder (img : Image) (sx sy ex ey : ℤ) (colour : Pixel) : Image :=
  img.mapIdx (fun y row =>
    row.mapIdx (fun x p => if onBorder sx sy ex ey (x : ℤ) (y : ℤ) then colour else p))

/-! ## Segmentation post-processing (`greenonbrown.py` lines 77-118)

The response thresholding/closing steps (lines 77-94) are recorded as the
sequence of operations applied; the per-contour loop (lines 102-115) is
embedded directly.  `cv2.findContours`/`cv2.contourArea`/`cv2.boundingRect`
are external OpenCV calls: a contour enters the embedding as its area
(a float) together with its bounding rectangle. -/

/-- One image-processing operation of `green_on_brown` lines 77-94. -/
inductive SegOp
  | clampThreshold
  | adaptiveThreshold
  | morphClose (iterations : ℕ)
  deriving DecidableEq, Repr

/-- The operations `green_on_brown` applies to the response image
(lines 79-91): a non-binary response is clamped to `(exgMin, exgMax]`,
adaptively thresholded and closed once; an already-binary mask is only
closed, with 5 iterations. -/
def segmentationOps (threshedAlready : Bool) : List SegOp :=
  if !threshedAlready then [.clampThreshold, .adaptiveThreshold, .morphClose 1]
  else [.morphClose 5]

/-- A contour as returned by OpenCV: its area (`cv2.contourArea`, a float)
and its bounding rectangle (`cv2.boundingRect`). -/
structure Contour where
  area : ℚ
  x : ℕ
  y : ℕ
  w : ℕ
  h : ℕ
  deriving DecidableEq, Repr

/-- The contours surviving the area filter of `green_on_brown` line 104:
`if cv2.contourArea(c) > minArea` (strict). -/
def gobSurvivors (cnts : List Contour) (minArea : ℚ) : List Contour :=
  cnts.filter (fun c => decide (minArea < c.area))

/-- Bounding boxes collected by `green_on_brown` lines 106-111:
`[startX, startY, boxW, boxH]` for each surviving contour. -/
def gobBoxes (cnts : List Contour) (minArea : ℚ) : List (ℕ × ℕ × ℕ × ℕ) :=
  (gobSurvivors cnts minArea).map (fun c => (c.x, c.y, c.w, c.h))

/-- Centroids collected by `green_on_brown` lines 113-115:
`centerX = int(startX + (boxW / 2))`, `centerY = int(startY + (boxH / 2))`;
on non-negative integers Python `int()` of `a + b/2` is `a + b/2` rounded
down, i.e. natural division by 2. -/
def gobCentres (cnts : List Contour) (minArea : ℚ) : List (ℕ × ℕ) :=
  (gobSurvivors cnts minArea).map (fun c => (c.x + c.w / 2, c.y + c.h / 2))

/-- The value returned by `green_on_brown` line 118:
`return cnts, boxes, weedCenters, image` — note the contour list is returned
unfiltered, and the image is the argument buffer with a rectangle painted for
every surviving contour (line 109). -/
def green_on_brown (image : Image) (cnts : List Contour) (minArea : ℚ) :
    List Contour × List (ℕ × ℕ × ℕ × ℕ) × List (ℕ × ℕ) × Image :=
  (cnts, gobBoxes cnts minArea, gobCentres cnts minArea,
    (gobSurvivors cnts minArea).foldl
      (fun img c => drawRectBorder img (c.x : ℤ) (c.y : ℤ) ((c.x + c.w : ℕ) : ℤ)
        ((c.y + c.h : ℕ) : ℤ) (0, 0, 255)) image)

/-! ## Vegetation-index dispatch (`greenonbrown.py` lines 42-94)

The leaf algorithms `exg, exgr, maxg, exg_standardised, exg_standardised_hue,
hsv, gndvi` are imported from the `algorithms` module, which is not among the
sources; the dispatch is therefore parametric in them.  `hsv` alone returns a
pair `(output, threshedAlready)`; every other branch assigns only `output`,
leaving `threshedAlready` as initialised on line 43 (`False`). -/

abbrev Response : Type := List (List ℚ)

/-- Threshold parameters threaded to the hue-gated and HSV variants. -/
structure HsvParams where
  hueMin : ℕ
  hueMax : ℕ
  brightnessMin : ℕ
  brightnessMax : ℕ
  saturationMin : ℕ
  saturationMax : ℕ
  deriving DecidableEq, Repr

/-- The leaf vegetation-index algorithms of the `algorithms` module (not under
the sources; kept abstract).  Only `hsv` returns an `(output, binary?)` pair,
matching its call site on line 62. -/
structure GobAlgorithms where
  exg : Image → Response
  exgr : Image → Response
  maxg : Image → Response
  exg_standardised : Image → Response
  exg_standardised_hue : HsvParams → Image → Response
  hsv : HsvParams → Image → Response × Bool
  gndvi : Image → Response

/-- The algorithm dispatch of `green_on_brown` lines 43-71, returning
`(output, threshedAlready, warned)`: `threshedAlready` starts `False` and is
overwritten only by the `hsv` branch; the final `else` falls back to `exg`
and prints `[WARNING] DEFAULTED TO EXG`. -/
def gobDispatch (A : GobAlgorithms) (algorithm : String) (p : HsvParams)
    (image : Image) : Response × Bool × Bool :=
  if algorithm = "exg" then (A.exg image, false, false)
  else if algorithm = "exgr" then (A.exgr image, false, false)
  else if algorithm = "maxg" then (A.maxg image, false, false)
  else if algorithm = "nexg" then (A.exg_standardised image, false, false)
  else if algorithm = "exhsv" then (A.exg_standardised_hue p image, false, false)
  else if algorithm = "hsv" then
    ((A.hsv p image).1, (A.hsv p image).2, false)
  else if algorithm = "gndvi" then (A.gndvi image, false, false)
  else (A.exg image, false, true)

/-- A concrete instantiation of the leaf algorithms, used to evaluate the
dispatch on explicit inputs.  Its `hsv` returns an already-binary mask, the
behaviour the specification ascribes to the HSV-range variant. -/
def defaultAlgorithms : GobAlgorithms where
  exg _ := [[1]]
  exgr _ := [[2]]
  maxg _ := [[3]]
  exg_standardised _ := [[4]]
  exg_standardised_hue _ _ := [[5]]
  hsv _ _ := ([[6]], true)
  gndvi _ := [[7]]

/-! ## Learned detector (`utils/greenongreen.py` lines 69-138)

`GreenOnGreen.inference` reads `detection_boxes`/`detection_classes`/
`detection_scores` from the model outputs; when any is missing it returns
`None, [], [], image` (line 107).  Otherwise it keeps detections with
`scores[i] >= confidence and classes[i] == filter_id`, rescales the
normalised box corners by the frame size with `int()`, records
`[startX, startY, boxW, boxH]` and `(int(startX + boxW/2),
int(startY + boxH/2))`, draws each box on `image`, and returns
`None, self.boxes, self.weed_centers, image` (line 138): the contours
position is `None` on both paths. -/

/-- One raw detection row of the model output tensors: normalised corners
`(ymin, xmin, ymax, xmax)`, a confidence score and a class id (floats
modelled on `ℚ`). -/
structure RawDet where
  ymin : ℚ
  xmin : ℚ
  ymax : ℚ
  xmax : ℚ
  score : ℚ
  cls : ℕ
  deriving DecidableEq, Repr

/-- The detections accepted by the filter on line 116:
`scores[i] >= confidence and classes[i] == filter_id`. -/
def gogAccepted (dets : List RawDet) (confidence : ℚ) (fid : ℕ) : List RawDet :=
  dets.filter (fun d => decide (confidence ≤ d.score) && decide (d.cls = fid))

/-- Box rescaling of lines 118-124: `(startX, startY, boxW, boxH)` with
`startX = int(xmin * width)` etc. and `boxW = endX - startX`. -/
def gogBox (d : RawDet) (width height : ℕ) : ℤ × ℤ × ℤ × ℤ :=
  (pyInt (d.xmin * width), pyInt (d.ymin * height),
    pyInt (d.xmax * width) - pyInt (d.xmin * width),
    pyInt (d.ymax * height) - pyInt (d.ymin * height))

/-- Centre computation of lines 129-131:
`centerX = int(startX + (boxW / 2))`, `centerY = int(startY + (boxH / 2))`. -/
def gogCentre (d : RawDet) (width height : ℕ) : ℤ × ℤ :=
  (pyInt ((gogBox d width height).1 + ((gogBox d width height).2.2.1 : ℚ) / 2),
    pyInt ((gogBox d width height).2.1 + ((gogBox d width height).2.2.2 : ℚ) / 2))

/-- Embeds `GreenOnGreen.inference` lines 100-138.  `outputs` is `none` when any of
the three expected output tensors is missing.  `width`/`height` come from
`image.shape` (line 71).  The returned image is the argument buffer with the
accepted boxes painted on it (line 135) — `inference` draws on the very
buffer it was handed. -/
def gogInference (outputs : Option (List RawDet)) (confidence : ℚ) (fid : ℕ)
    (image : Image) : Option (List Contour) × List (ℤ × ℤ × ℤ × ℤ) × List (ℤ × ℤ) × Image :=
  match outputs with
  | none => (none, [], [], image)
  | some dets =>
    let width := (image.headD []).length
    let height := image.length
    let acc := gogAccepted dets confidence fid
    (none, acc.map (fun d => gogBox d width height),
      acc.map (fun d => gogCentre d width height),
      acc.foldl (fun img d =>
        drawRectBorder img (gogBox d width height).1 (gogBox d width height).2.1
          ((gogBox d width height).1 + (gogBox d width height).2.2.1)
          ((gogBox d width height).2.1 + (gogBox d width height).2.2.2) (0, 0, 255)) image)

/-! ## Frame ownership per cycle (`owl.py` lines 264-283; `greenonbrown.py` line 261)

`owl.py` line 266 passes `frame` itself to `weed_detector.inference`, so the
buffer the orchestrator holds after the cycle is the buffer `inference` drew
on.  The legacy `greenonbrown.py` line 261 passes `frame.copy()`, so drawing
mutates the copy and the orchestrator's buffer is untouched. -/

/-- The orchestrator's frame buffer after one `owl.py` `'gog'` detection cycle
(line 266: `weed_detector.inference(frame, ...)` — no copy, so the buffer
returned in the image position *is* the orchestrator's frame). -/
def owlGogCycleFrameAfter (outputs : Option (List RawDet)) (confidence : ℚ)
    (fid : ℕ) (frame : Image) : Image :=
  (gogInference outputs confidence fid frame).2.2.2

/-- The orchestrator's frame buffer after one `greenonbrown.py` detection
cycle (line 261: `green_on_brown(frame.copy(), ...)` — the copy is drawn on
and returned as `imageOut`; the frame buffer itself is left as read). -/
def gbCycleFrameAfter (frame : Image) (cnts : List Contour) (minArea : ℚ) : Image :=
  let _imageOut := (green_on_brown frame cnts minArea).2.2.2
  frame

/-! ## Fatal paths (`owl.py` lines 367-399; `greenonbrown.py` lines 328-369)

The side-effecting calls each handler performs, in order. -/

/-- An observable action of the shutdown/error-handling code. -/
inductive Action
  | setRunningFalse
  | allOff
  | beep
  | logLine
  | camStop
  | controllerStop
  | indicatorsStop
  | recorderStop
  | destroyWindows
  | relayVisClose
  | fpsStop
  | sysExit
  deriving DecidableEq, Repr

/-- Embeds `Owl.stop` of `owl.py` lines 380-399: stop the relay thread, force all
relays off, double beep, stop the camera, join the watcher, stop sampling,
close windows, exit. -/
def owlStop (enableController sampleImages showDisplay : Bool) : List Action :=
  [.setRunningFalse, .allOff, .beep, .beep, .camStop]
    ++ (if enableController then [.controllerStop] else [])
    ++ (if sampleImages then [.indicatorsStop, .recorderStop] else [])
    ++ (if showDisplay then [.destroyWindows] else [])
    ++ [.sysExit]

/-- Embeds `Owl.stop` of `greenonbrown.py` lines 356-369. -/
def gbStop (record showDisplay : Bool) : List Action :=
  [.setRunningFalse, .allOff, .beep, .beep, .camStop]
    ++ (if record then [.recorderStop] else [])
    ++ (if showDisplay then [.destroyWindows] else [])
    ++ [.sysExit]

/-- A fatal event interrupting the main loop. -/
inductive FatalExc
  | keyboardInterrupt
  | genericError
  deriving DecidableEq, Repr

/-- The exception dispatch of `owl.py` `Owl.hoot` lines 367-378: both the
`KeyboardInterrupt` handler and the generic `Exception` handler end in
`self.stop()`. -/
def owlHootFatalActions (logFps showDisplay enableController sampleImages : Bool) :
    FatalExc → List Action
  | .keyboardInterrupt =>
      (if logFps then [.fpsStop, .logLine] else [])
        ++ (if showDisplay then [.relayVisClose] else []) ++ [.logLine]
        ++ owlStop enableController sampleImages showDisplay
  | .genericError => [.logLine] ++ owlStop enableController sampleImages showDisplay

/-- The exception dispatch of `greenonbrown.py` `Owl.hoot` lines 328-335: the
`KeyboardInterrupt` handler calls `self.stop()`, but the generic `Exception`
handler only beeps and logs `[CRITICAL ERROR] STOPPED` — it never calls
`self.stop()`, so no `all_off` is issued on that path. -/
def gbHootFatalActions (record showDisplay : Bool) : FatalExc → List Action
  | .keyboardInterrupt => [.fpsStop, .logLine] ++ gbStop record showDisplay
  | .genericError => [.beep, .logLine]

end Owl

namespace Scheduler

/-! ## Actuation scheduler (spec §4.6)

Modelled from the spec: the actuation scheduler (`RelayController` in
`utils/relay_control.py`) is not among the sources — only its call sites
(`owl.py` line 302, `greenonbrown.py` line 301) are.  Per §4.6 each lane owns
a timer state machine `Idle → Pending → Active → Idle` driven by wall-clock
deadlines: a job on an `Idle` lane arms activation at `now + delay` and
deactivation at `now + delay + duration`; a job on a `Pending`/`Active` lane
leaves the armed activation timer alone and extends the armed deactivation
deadline to the later of the two; the activation deadline firing while
`Pending` drives the relay ON; the deactivation deadline firing while
`Active` (not superseded) drives it OFF.  Time is in milliseconds (`ℕ`). -/

/-- A spray job for one lane: arrival time, delay and duration (ms). -/
structure SprayJob where
  arrival : ℕ
  delay : ℕ
  duration : ℕ
  deriving DecidableEq, Repr

/-- Modelled from the spec: the per-lane timer state of §4.6,
`{Idle | Pending | Active}` with the armed wall-clock deadlines. -/
inductive LaneTimerState
  | idle
  | pending (activateAt deactivateAt : ℕ)
  | active (deactivateAt : ℕ)
  deriving DecidableEq, Repr

/-- Modelled from the spec: job submission (§4.6).  `Idle + SprayJob` arms
activation at `now + delay` and deactivation at `now + delay + duration`;
`Pending/Active + SprayJob` does not reset the armed activation timer and
extends the armed deactivation deadline to the later of the two. -/
def submitJob (s : LaneTimerState) (now delay duration : ℕ) : LaneTimerState :=
  match s with
  | .idle => .pending (now + delay) (now + delay + duration)
  | .pending a d => .pending a (max d (now + delay + duration))
  | .active d => .active (max d (now + delay + duration))

/-- Modelled from the spec: deadline firing (§4.6).  At time `t` a `Pending`
lane whose activation deadline has passed turns `Active` (relay ON); an
`Active` lane whose deactivation deadline has passed (and was not superseded)
turns `Idle` (relay OFF). -/
def expireTimers (s : LaneTimerState) (t : ℕ) : LaneTimerState :=
  match s with
  | .idle => .idle
  | .pending a d => if a ≤ t then (if d ≤ t then .idle else .active d) else .pending a d
  | .active d => if d ≤ t then .idle else .active d

/-- One millisecond step of one lane's timer: fire due deadlines, then accept
the jobs arriving at `t`. -/
def laneTick (jobs : List SprayJob) (s : LaneTimerState) (t : ℕ) : LaneTimerState :=
  (jobs.filter (fun j => j.arrival == t)).foldl
    (fun s' j => submitJob s' t j.delay j.duration) (expireTimers s t)

/-- The lane's timer state after all deadlines and job arrivals up to and
including time `t` have been processed. -/
def laneRun (jobs : List SprayJob) : ℕ → LaneTimerState
  | 0 => laneTick jobs .idle 0
  | t + 1 => laneTick jobs (laneRun jobs t) (t + 1)

/-- Whether the lane's physical relay is ON at time `t`: exactly in `Active`. -/
def relayOn (jobs : List SprayJob) (t : ℕ) : Bool :=
  match laneRun jobs t with
  | .active _ => true
  | _ => false

/-- The spec's end-to-end scenario: two jobs for one lane at `t = 0` and
`t = 0.15 s`, each with delay `0.1 s` and duration `0.2 s` (ms). -/
def overlapJobs : List SprayJob := [⟨0, 100, 200⟩, ⟨150, 100, 200⟩]

end Scheduler

/-! Theorems. -/

namespace Owl

lemma laneWidth_mul (N k : ℕ) (hN : 0 < N) : laneWidth (N * k) N = (k : ℚ) := by
  have hN' : (N : ℚ) ≠ 0 := Nat.cast_ne_zero.mpr hN.ne'
  unfold laneWidth
  push_cast
  exact mul_div_cancel_left₀ (k : ℚ) hN'

lemma laneCoord_mul (N k i : ℕ) (hN : 0 < N) : laneCoord (N * k) N i = i * k := by
  unfold laneCoord
  rw [laneWidth_mul N k hN,
    show (i : ℚ) * (k : ℚ) = ((i * k : ℕ) : ℚ) by push_cast; ring,
    Int.floor_natCast, Int.toNat_natCast]

lemma owlLaneMatch_iff (N k x i : ℕ) (hN : 0 < N) :
    owlLaneMatch (N * k) N x i = true ↔ i * k ≤ x ∧ x < i * k + k := by
  unfold owlLaneMatch
  rw [laneWidth_mul N k hN, laneCoord_mul N k i hN]
  simp only [Bool.and_eq_true, decide_eq_true_eq]
  have hcast : ((i * k : ℕ) : ℚ) + (k : ℚ) = ((i * k + k : ℕ) : ℚ) := by push_cast; ring
  rw [hcast, Nat.cast_lt]

lemma gbLaneMatch_iff (N k x i : ℕ) (hN : 0 < N) :
    gbLaneMatch (N * k) N x i = true ↔ i * k ≤ x ∧ x < i * k + k := by
  unfold gbLaneMatch gbLaneEnd
  rw [laneWidth_mul N k hN, laneCoord_mul N k i hN,
    show ((i * k : ℕ) : ℚ) + (k : ℚ) = ((i * k + k : ℕ) : ℚ) by push_cast; ring,
    Int.floor_natCast, Int.toNat_natCast]
  simp only [Bool.and_eq_true, decide_eq_true_eq]

lemma filter_range_singleton (p : ℕ → Bool) (N m : ℕ) (hm : m < N)
    (h : ∀ i, i < N → (p i = true ↔ i = m)) :
    (List.range N).filter p = [m] := by
  induction N with
  | zero => omega
  | succ n ih =>
    rw [List.range_succ, List.filter_append]
    rcases Nat.lt_or_ge m n with hmn | hmn
    · rw [ih hmn (fun i hi => h i (Nat.lt_succ_of_lt hi))]
      have hpn : p n = false := by
        rcases Bool.eq_false_or_eq_true (p n) with ht | hf
        · exact absurd ((h n (Nat.lt_succ_self n)).mp ht) (by omega)
        · exact hf
      simp [List.filter_singleton, hpn]
    · have hmn' : m = n := by omega
      subst hmn'
      have h1 : (List.range m).filter p = [] := by
        refine List.filter_eq_nil_iff.mpr (fun a ha => ?_)
        have ha' : a < m := List.mem_range.mp ha
        intro hpa
        exact absurd ((h a (by omega)).mp hpa) (by omega)
      have h2 : p m = true := (h m (by omega)).mpr rfl
      simp [h1, List.filter_singleton, h2]

lemma interval_iff_eq_div (k x i : ℕ) (hk : 0 < k) :
    (i * k ≤ x ∧ x < i * k + k) ↔ i = x / k := by
  constructor
  · rintro ⟨h1, h2⟩
    exact (Nat.div_eq_of_lt_le h1 (by rw [Nat.succ_mul]; exact h2)).symm
  · rintro rfl
    refine ⟨Nat.div_mul_le_self x k, ?_⟩
    have h1 := Nat.div_add_mod' x k
    have h2 := Nat.mod_lt x hk
    omega

/-- Claim C1, counterexample: with frame width 10 and 3 lanes, the `owl.py` lane
test fires lanes 0 and 1 for the in-range centroid x = 3, and the
`greenonbrown.py` lane test fires no lane at all for the in-range centroid
x = 9 — so the lane-membership test does not assign every x in `[0, W)` to
exactly one lane. -/
theorem C1_counterexample :
    3 < 10 ∧ owlFiredLanes 10 3 3 = [0, 1] ∧ 9 < 10 ∧ gbFiredLanes 10 3 9 = [] := by
  have c0 : laneCoord 10 3 0 = 0 := by norm_num [laneCoord, laneWidth] <;> rfl
  have c1 : laneCoord 10 3 1 = 3 := by norm_num [laneCoord, laneWidth] <;> rfl
  have c2 : laneCoord 10 3 2 = 6 := by norm_num [laneCoord, laneWidth] <;> rfl
  have e0 : gbLaneEnd 10 3 0 = 3 := by
    norm_num [gbLaneEnd, c0, laneWidth] <;> rfl
  have e1 : gbLaneEnd 10 3 1 = 6 := by
    norm_num [gbLaneEnd, c1, laneWidth] <;> rfl
  have e2 : gbLaneEnd 10 3 2 = 9 := by
    norm_num [gbLaneEnd, c2, laneWidth] <;> rfl
  refine ⟨by norm_num, ?_, by norm_num, ?_⟩
  · norm_num [owlFiredLanes, owlLaneMatch, List.range_succ, List.filter_cons,
      List.filter_nil, c0, c1, c2, laneWidth]
  · norm_num [gbFiredLanes, gbLaneMatch, List.range_succ, List.filter_cons,
      List.filter_nil, c0, c1, c2, e0, e1, e2]

/-- Claim C1, amended: when the lane count divides the frame width (as with the
shipped 416-wide, 4-relay configuration), the spray-decision lane tests of
both `owl.py` and `greenonbrown.py` assign every centroid x in `[0, W)` to
exactly one lane index in `[0, N)` and assign `x = W` to no lane.  (For
widths not divisible by `N` the floored lane starts break the partition, as
the counterexample shows.) -/
theorem C1_lane_partition (W N : ℕ) (hN : 0 < N) (hdvd : N ∣ W) :
    (∀ x, x < W → (owlFiredLanes W N x).length = 1 ∧ (gbFiredLanes W N x).length = 1)
    ∧ owlFiredLanes W N W = [] ∧ gbFiredLanes W N W = [] := by
  obtain ⟨k, rfl⟩ := hdvd
  refine ⟨fun x hx => ?_, ?_, ?_⟩
  · have hk : 0 < k := by
      rcases Nat.eq_zero_or_pos k with rfl | hk
      · omega
      · exact hk
    have hm : x / k < N := (Nat.div_lt_iff_lt_mul hk).mpr hx
    have howl : ∀ i, i < N → (owlLaneMatch (N * k) N x i = true ↔ i = x / k) := by
      intro i _
      rw [owlLaneMatch_iff N k x i hN, interval_iff_eq_div k x i hk]
    have hgb : ∀ i, i < N → (gbLaneMatch (N * k) N x i = true ↔ i = x / k) := by
      intro i _
      rw [gbLaneMatch_iff N k x i hN, interval_iff_eq_div k x i hk]
    constructor
    · unfold owlFiredLanes
      rw [filter_range_singleton _ N (x / k) hm howl]
      rfl
    · unfold gbFiredLanes
      rw [filter_range_singleton _ N (x / k) hm hgb]
      rfl
  · refine List.filter_eq_nil_iff.mpr (fun i hi => ?_)
    have hi' : i < N := List.mem_range.mp hi
    intro hmatch
    obtain ⟨h1, h2⟩ := (owlLaneMatch_iff N k (N * k) i hN).mp hmatch
    have hle : (i + 1) * k ≤ N * k := Nat.mul_le_mul_right k (by omega)
    rw [Nat.succ_mul] at hle
    omega
  · refine List.filter_eq_nil_iff.mpr (fun i hi => ?_)
    have hi' : i < N := List.mem_range.mp hi
    intro hmatch
    obtain ⟨h1, h2⟩ := (gbLaneMatch_iff N k (N * k) i hN).mp hmatch
    have hle : (i + 1) * k ≤ N * k := Nat.mul_le_mul_right k (by omega)
    rw [Nat.succ_mul] at hle
    omega

/-- Witness for `C1_lane_partition`: with width 8, 4 lanes and centroid x = 5,
both tests fire exactly one lane. -/
theorem C1_lane_partition_witness :
    (owlFiredLanes 8 4 5).length = 1 ∧ (gbFiredLanes 8 4 5).length = 1 :=
  (C1_lane_partition 8 4 (by decide) (by decide)).1 5 (by decide)

end Owl

namespace Scheduler

lemma laneTick_no_arrival (jobs : List SprayJob) (s : LaneTimerState) (t : ℕ)
    (h : jobs.filter (fun j => j.arrival == t) = []) :
    laneTick jobs s t = expireTimers s t := by
  unfold laneTick
  rw [h]
  rfl

lemma overlap_no_arrival (t : ℕ) (h0 : t ≠ 0) (h150 : t ≠ 150) :
    overlapJobs.filter (fun j => j.arrival == t) = [] := by
  have e0 : (((⟨0, 100, 200⟩ : SprayJob).arrival) == t) = false :=
    beq_eq_false_iff_ne.mpr (Ne.symm h0)
  have e150 : (((⟨150, 100, 200⟩ : SprayJob).arrival) == t) = false :=
    beq_eq_false_iff_ne.mpr (Ne.symm h150)
  simp only [overlapJobs, List.filter_cons, e0, List.filter_nil]
  simp [e150]

lemma laneRun_pending (t : ℕ) (h : t ≤ 99) :
    laneRun overlapJobs t = .pending 100 300 := by
  induction t with
  | zero => rfl
  | succ n ih =>
    show laneTick overlapJobs (laneRun overlapJobs n) (n + 1) = .pending 100 300
    rw [ih (by omega),
      laneTick_no_arrival _ _ _ (overlap_no_arrival _ (by omega) (by omega))]
    simp only [expireTimers]
    rw [if_neg (by omega)]

lemma laneRun_active_first (t : ℕ) (h1 : 100 ≤ t) (h2 : t ≤ 149) :
    laneRun overlapJobs t = .active 300 := by
  induction t with
  | zero => omega
  | succ n ih =>
    show laneTick overlapJobs (laneRun overlapJobs n) (n + 1) = .active 300
    rcases Nat.lt_or_ge n 100 with hn | hn
    · have hn' : n = 99 := by omega
      subst hn'
      rw [laneRun_pending 99 (by omega),
        laneTick_no_arrival _ _ _ (overlap_no_arrival _ (by omega) (by omega))]
      simp only [expireTimers]
      rw [if_pos (by omega), if_neg (by omega)]
    · rw [ih (by omega) (by omega),
        laneTick_no_arrival _ _ _ (overlap_no_arrival _ (by omega) (by omega))]
      simp only [expireTimers]
      rw [if_neg (by omega)]

lemma laneRun_active_merged (t : ℕ) (h1 : 150 ≤ t) (h2 : t ≤ 449) :
    laneRun overlapJobs t = .active 450 := by
  induction t with
  | zero => omega
  | succ n ih =>
    show laneTick overlapJobs (laneRun overlapJobs n) (n + 1) = .active 450
    rcases Nat.lt_or_ge n 150 with hn | hn
    · have hn' : n = 149 := by omega
      subst hn'
      rw [laneRun_active_first 149 (by omega) (by omega)]
      rfl
    · rw [ih (by omega) (by omega),
        laneTick_no_arrival _ _ _ (overlap_no_arrival _ (by omega) (by omega))]
      simp only [expireTimers]
      rw [if_neg (by omega)]

lemma laneRun_idle_after (t : ℕ) (h : 450 ≤ t) :
    laneRun overlapJobs t = .idle := by
  induction t with
  | zero => omega
  | succ n ih =>
    show laneTick overlapJobs (laneRun overlapJobs n) (n + 1) = .idle
    rcases Nat.lt_or_ge n 450 with hn | hn
    · have hn' : n = 449 := by omega
      subst hn'
      rw [laneRun_active_merged 449 (by omega) (by omega)]
      rfl
    · rw [ih (by omega),
        laneTick_no_arrival _ _ _ (overlap_no_arrival _ (by omega) (by omega))]
      rfl

/-- Claim C2: a job submitted to a `Pending` or `Active` lane leaves the armed
activation timer untouched and extends the armed deactivation deadline to the
later of the two deadlines; consequently, in the spec's end-to-end scenario —
two jobs for one lane at t = 0 s and t = 0.15 s, each with delay 0.1 s and
duration 0.2 s — the lane's relay is ON exactly on `[0.1 s, 0.45 s)`, one
continuous pulse with no intermediate OFF transition. -/
theorem C2_overlap_coalescing :
    (∀ a d now delay dur, submitJob (.pending a d) now delay dur
        = .pending a (max d (now + delay + dur)))
    ∧ (∀ d now delay dur, submitJob (.active d) now delay dur
        = .active (max d (now + delay + dur)))
    ∧ (∀ t, relayOn overlapJobs t = decide (100 ≤ t ∧ t < 450)) := by
  refine ⟨fun _ _ _ _ _ => rfl, fun _ _ _ _ => rfl, fun t => ?_⟩
  rcases Nat.lt_or_ge t 100 with h1 | h1
  · simp only [relayOn, laneRun_pending t (by omega)]
    exact (decide_eq_false (by omega)).symm
  rcases Nat.lt_or_ge t 150 with h2 | h2
  · simp only [relayOn, laneRun_active_first t (by omega) (by omega)]
    exact (decide_eq_true (by omega)).symm
  rcases Nat.lt_or_ge t 450 with h3 | h3
  · simp only [relayOn, laneRun_active_merged t (by omega) (by omega)]
    exact (decide_eq_true (by omega)).symm
  · simp only [relayOn, laneRun_idle_after t (by omega)]
    exact (decide_eq_false (by omega)).symm

end Scheduler

namespace Owl

/-- Claim C3, counterexample: `green_on_brown` returns the *unfiltered* contour
list in the contours position (`return cnts, ...`, line 118), so with
`min_area = 1` a contour of area 0 is returned. -/
theorem C3_counterexample :
    ∃ c ∈ (green_on_brown [] [⟨0, 0, 0, 1, 1⟩] 1).1, c.area < 1 := by
  refine ⟨⟨0, 0, 0, 1, 1⟩, ?_, by norm_num⟩
  show _ ∈ [(⟨0, 0, 0, 1, 1⟩ : Contour)]
  exact List.mem_singleton.mpr rfl

/-- Claim C3, amended: the contours component of `green_on_brown`'s result is
the input contour list unfiltered — it may contain contours with area below
`min_area` — while every bounding rectangle and every centroid comes from a
contour whose area is strictly greater than `min_area` (a contour with area
equal to `min_area` is discarded too, since line 104 tests `>`). -/
theorem C3_min_area_filter (img : Image) (cnts : List Contour) (minArea : ℚ) :
    (green_on_brown img cnts minArea).1 = cnts
    ∧ (∀ b ∈ (green_on_brown img cnts minArea).2.1,
        ∃ c ∈ cnts, minArea < c.area ∧ b = (c.x, c.y, c.w, c.h))
    ∧ (∀ p ∈ (green_on_brown img cnts minArea).2.2.1,
        ∃ c ∈ cnts, minArea < c.area ∧ p = (c.x + c.w / 2, c.y + c.h / 2)) := by
  refine ⟨rfl, fun b hb => ?_, fun p hp => ?_⟩
  · obtain ⟨c, hc, rfl⟩ := List.mem_map.mp hb
    obtain ⟨hcm, hca⟩ := List.mem_filter.mp hc
    exact ⟨c, hcm, of_decide_eq_true hca, rfl⟩
  · obtain ⟨c, hc, rfl⟩ := List.mem_map.mp hp
    obtain ⟨hcm, hca⟩ := List.mem_filter.mp hc
    exact ⟨c, hcm, of_decide_eq_true hca, rfl⟩

/-- Witness for `C3_min_area_filter`: for the contour with area 5 and rect
(1, 2, 3, 4) above threshold 1, the box (1, 2, 3, 4) indeed traces back to a
qualifying contour. -/
theorem C3_min_area_filter_witness :
    ∃ c ∈ [(⟨5, 1, 2, 3, 4⟩ : Contour)], (1 : ℚ) < c.area ∧
      ((1 : ℕ), (2 : ℕ), (3 : ℕ), (4 : ℕ)) = (c.x, c.y, c.w, c.h) :=
  (C3_min_area_filter [] [⟨5, 1, 2, 3, 4⟩] 1).2.1 (1, 2, 3, 4) (by decide)

/-- Claim C4: a spray job is submitted only for a centroid with
`centre[1] > yAct` (every submission traces back to such a centroid), and a
centroid at or below the activation line contributes no job at all — in both
`owl.py` and `greenonbrown.py`. -/
theorem C4_activation_line (W N yAct : ℕ) (centres : List (ℕ × ℕ)) :
    (∀ j ∈ owlSubmissions W N yAct centres,
        ∃ c ∈ centres, yAct < c.2 ∧ j ∈ owlFiredLanes W N c.1)
    ∧ (∀ c : ℕ × ℕ, c.2 ≤ yAct → owlSubmissionsForCentre W N yAct c = [])
    ∧ (∀ j ∈ gbSubmissions W N yAct centres,
        ∃ c ∈ centres, yAct < c.2 ∧ j ∈ gbFiredLanes W N c.1)
    ∧ (∀ c : ℕ × ℕ, c.2 ≤ yAct → gbSubmissionsForCentre W N yAct c = []) := by
  refine ⟨fun j hj => ?_, fun c hc => ?_, fun j hj => ?_, fun c hc => ?_⟩
  · obtain ⟨c, hcm, hjc⟩ := List.mem_flatMap.mp hj
    by_cases hy : yAct < c.2
    · rw [owlSubmissionsForCentre, if_pos hy] at hjc
      exact ⟨c, hcm, hy, hjc⟩
    · rw [owlSubmissionsForCentre, if_neg hy] at hjc
      exact absurd hjc (List.not_mem_nil j)
  · rw [owlSubmissionsForCentre, if_neg (by omega)]
  · obtain ⟨c, hcm, hjc⟩ := List.mem_flatMap.mp hj
    by_cases hy : yAct < c.2
    · rw [gbSubmissionsForCentre, if_pos hy] at hjc
      exact ⟨c, hcm, hy, hjc⟩
    · rw [gbSubmissionsForCentre, if_neg hy] at hjc
      exact absurd hjc (List.not_mem_nil j)
  · rw [gbSubmissionsForCentre, if_neg (by omega)]

/-- Witness for `C4_activation_line`: with width 10, 3 lanes and activation
line 40, the centroid (3, 50) is above the line and its submission of lane 0
traces back to it, while the centroid (3, 20) at y = 20 ≤ 40 contributes no
job. -/
theorem C4_activation_line_witness :
    (∃ c ∈ [((3 : ℕ), (50 : ℕ))], 40 < c.2 ∧ 0 ∈ owlFiredLanes 10 3 c.1)
    ∧ owlSubmissionsForCentre 10 3 40 (3, 20) = []
    ∧ gbSubmissionsForCentre 10 3 40 (3, 20) = [] := by
  refine ⟨(C4_activation_line 10 3 40 [(3, 50)]).1 0 ?_,
    (C4_activation_line 10 3 40 [(3, 20)]).2.1 (3, 20) (by decide),
    (C4_activation_line 10 3 40 [(3, 20)]).2.2.2 (3, 20) (by decide)⟩
  have c0 : laneCoord 10 3 0 = 0 := by norm_num [laneCoord, laneWidth] <;> rfl
  simp only [owlSubmissions, List.flatMap_cons, List.flatMap_nil,
    owlSubmissionsForCentre, List.append_nil, if_pos (by norm_num : (40 : ℕ) < 50)]
  simp only [owlFiredLanes, List.range_succ, List.range_zero, List.filter_append]
  have h0 : owlLaneMatch 10 3 3 0 = true := by
    norm_num [owlLaneMatch, c0, laneWidth]
  simp [h0]

/-- Claim C5: in `owl.py` every fatal path of the main loop (generic critical
error or interrupt) runs `Owl.stop`, which forces all relays off — but in
`greenonbrown.py` the generic `Exception` handler (lines 333-335) only beeps
and logs `[CRITICAL ERROR] STOPPED` without ever calling `stop()`, so no
`all_off` is issued on that fatal path, whatever the display/record flags. -/
theorem C5_fatal_all_off :
    (∀ logFps showDisplay enableController sampleImages : Bool,
        Action.allOff ∈
          owlHootFatalActions logFps showDisplay enableController sampleImages .genericError
        ∧ Action.allOff ∈
          owlHootFatalActions logFps showDisplay enableController sampleImages
            .keyboardInterrupt)
    ∧ (∀ record showDisplay : Bool,
        Action.allOff ∈ gbHootFatalActions record showDisplay .keyboardInterrupt)
    ∧ (∀ record showDisplay : Bool,
        Action.allOff ∉ gbHootFatalActions record showDisplay .genericError) := by
  refine ⟨fun a b c d => ?_, fun a b => ?_, fun a b => ?_⟩ <;>
    cases a <;> cases b <;> first
      | (cases c <;> cases d <;> exact ⟨by decide, by decide⟩)
      | decide

end Owl

namespace Owl

/-- Claim C6, counterexample: the `'exhsv'` branch of the dispatch (line 57)
assigns only `output`, so `threshedAlready` keeps its line-43 value `False`
and the adaptive-threshold step is *not* skipped for the hue-gated ExG
variant — only `'hsv'` (line 62) overwrites the flag. -/
theorem C6_counterexample :
    (gobDispatch defaultAlgorithms "exhsv" ⟨30, 90, 5, 200, 30, 255⟩ []).2.1 = false
    ∧ SegOp.adaptiveThreshold ∈
        segmentationOps
          (gobDispatch defaultAlgorithms "exhsv" ⟨30, 90, 5, 200, 30, 255⟩ []).2.1 := by
  constructor <;> decide

/-- Claim C6, amended: only the HSV-range variant (`'hsv'`) propagates an
already-binary flag — when its leaf function reports a binary mask, the
dispatch marks the result binary and the downstream adaptive threshold is
skipped (only a 5-iteration morphological close runs).  Every other selector,
including the hue-gated `'exhsv'` variant, leaves the flag `False`, and its
continuous response goes through clamping, adaptive thresholding and a
1-iteration close. -/
theorem C6_binary_flag (A : GobAlgorithms) (p : HsvParams) (img : Image) (alg : String) :
    (alg ≠ "hsv" → (gobDispatch A alg p img).2.1 = false)
    ∧ ((A.hsv p img).2 = true →
        (gobDispatch A "hsv" p img).2.1 = true
        ∧ SegOp.adaptiveThreshold ∉
            segmentationOps (gobDispatch A "hsv" p img).2.1)
    ∧ segmentationOps false = [.clampThreshold, .adaptiveThreshold, .morphClose 1] := by
  refine ⟨fun h => ?_, fun h => ?_, rfl⟩
  · unfold gobDispatch
    split_ifs with h1 h2 h3 h4 h5 h6 h7 <;> first | rfl | exact absurd h6 h
  · have hflag : (gobDispatch A "hsv" p img).2.1 = (A.hsv p img).2 := by
      unfold gobDispatch
      rw [if_neg (by decide), if_neg (by decide), if_neg (by decide),
        if_neg (by decide), if_neg (by decide), if_pos rfl]
    rw [hflag, h]
    exact ⟨rfl, by decide⟩

/-- Witness for `C6_binary_flag`: evaluated on the concrete leaf algorithms,
`'exg'` is reported non-binary and `'hsv'` binary with the adaptive threshold
skipped. -/
theorem C6_binary_flag_witness :
    (gobDispatch defaultAlgorithms "exg" ⟨30, 90, 5, 200, 30, 255⟩ []).2.1 = false
    ∧ ((gobDispatch defaultAlgorithms "hsv" ⟨30, 90, 5, 200, 30, 255⟩ []).2.1 = true
        ∧ SegOp.adaptiveThreshold ∉
            segmentationOps
              (gobDispatch defaultAlgorithms "hsv" ⟨30, 90, 5, 200, 30, 255⟩ []).2.1) :=
  ⟨(C6_binary_flag defaultAlgorithms ⟨30, 90, 5, 200, 30, 255⟩ [] "exg").1 (by decide),
    (C6_binary_flag defaultAlgorithms ⟨30, 90, 5, 200, 30, 255⟩ [] "hsv").2.1 rfl⟩

/-- Claim C8: any selector outside the seven recognised tags reaches the final
`else` of the dispatch (lines 69-71), which computes the ExG response and
prints `[WARNING] DEFAULTED TO EXG` — the dispatch is total and never
fails. -/
theorem C8_unknown_falls_back (A : GobAlgorithms) (alg : String) (p : HsvParams)
    (img : Image)
    (h : alg ∉ (["exg", "exgr", "maxg", "nexg", "exhsv", "hsv", "gndvi"] : List String)) :
    gobDispatch A alg p img = (A.exg img, false, true) := by
  simp only [List.mem_cons, List.not_mem_nil, or_false, not_or] at h
  obtain ⟨h1, h2, h3, h4, h5, h6, h7⟩ := h
  unfold gobDispatch
  rw [if_neg h1, if_neg h2, if_neg h3, if_neg h4, if_neg h5, if_neg h6, if_neg h7]

/-- Witness for `C8_unknown_falls_back`: the unrecognised selector `"foo"`
yields the ExG response with the warning flag set. -/
theorem C8_unknown_falls_back_witness :
    gobDispatch defaultAlgorithms "foo" ⟨30, 90, 5, 200, 30, 255⟩ []
      = (defaultAlgorithms.exg [], false, true) :=
  C8_unknown_falls_back defaultAlgorithms "foo" ⟨30, 90, 5, 200, 30, 255⟩ [] (by decide)

/-- Claim C10: `GreenOnGreen.inference` returns `None` in the contours position
on both of its return paths — the missing-tensor path (line 107) and the
normal path (line 138) — so the learned-detector variant never populates the
contours sequence. -/
theorem C10_contours_always_none (outputs : Option (List RawDet)) (confidence : ℚ)
    (fid : ℕ) (image : Image) :
    (gogInference outputs confidence fid image).1 = none := by
  cases outputs <;> rfl

end Owl

namespace Owl

/-- Claim C7, counterexample: `owl.py` line 266 passes `frame` itself (no copy)
to `GreenOnGreen.inference`, which draws the accepted box onto that very
buffer (line 135) — so after a cycle with one confident detection the
orchestrator's 3×3 frame differs from the frame that was read. -/
theorem C7_counterexample :
    owlGogCycleFrameAfter
        (some [⟨0, 0, 1/2, 1/2, 1, 0⟩]) 0 0
        [[(1, 1, 1), (1, 1, 1), (1, 1, 1)],
          [(1, 1, 1), (1, 1, 1), (1, 1, 1)],
          [(1, 1, 1), (1, 1, 1), (1, 1, 1)]]
      ≠ [[(1, 1, 1), (1, 1, 1), (1, 1, 1)],
          [(1, 1, 1), (1, 1, 1), (1, 1, 1)],
          [(1, 1, 1), (1, 1, 1), (1, 1, 1)]] := by
  have hbox : gogBox ⟨0, 0, 1/2, 1/2, 1, 0⟩ 3 3 = (0, 0, 1, 1) := by
    norm_num [gogBox, pyInt]
  have key : owlGogCycleFrameAfter
      (some [⟨0, 0, 1/2, 1/2, 1, 0⟩]) 0 0
      [[(1, 1, 1), (1, 1, 1), (1, 1, 1)],
        [(1, 1, 1), (1, 1, 1), (1, 1, 1)],
        [(1, 1, 1), (1, 1, 1), (1, 1, 1)]]
      = drawRectBorder
          [[(1, 1, 1), (1, 1, 1), (1, 1, 1)],
            [(1, 1, 1), (1, 1, 1), (1, 1, 1)],
            [(1, 1, 1), (1, 1, 1), (1, 1, 1)]]
          (gogBox ⟨0, 0, 1/2, 1/2, 1, 0⟩ 3 3).1
          (gogBox ⟨0, 0, 1/2, 1/2, 1, 0⟩ 3 3).2.1
          ((gogBox ⟨0, 0, 1/2, 1/2, 1, 0⟩ 3 3).1
            + (gogBox ⟨0, 0, 1/2, 1/2, 1, 0⟩ 3 3).2.2.1)
          ((gogBox ⟨0, 0, 1/2, 1/2, 1, 0⟩ 3 3).2.1
            + (gogBox ⟨0, 0, 1/2, 1/2, 1, 0⟩ 3 3).2.2.2)
          (0, 0, 255) := rfl
  rw [key, hbox]
  decide

/-- Claim C7, amended: the legacy `greenonbrown.py` loop protects its frame
with an explicit `frame.copy()` (line 261), so its frame after a cycle equals
the frame read; `owl.py`, however, passes the frame object itself into
detection, which draws on it — the frame is preserved only on cycles where
nothing is drawn (missing output tensors, or no detection passing the
confidence/class filter), and is mutated otherwise (see the
counterexample). -/
theorem C7_frame_ownership (frame : Image) (cnts : List Contour) (minArea : ℚ)
    (confidence : ℚ) (fid : ℕ) :
    gbCycleFrameAfter frame cnts minArea = frame
    ∧ owlGogCycleFrameAfter none confidence fid frame = frame
    ∧ (∀ dets, gogAccepted dets confidence fid = [] →
        owlGogCycleFrameAfter (some dets) confidence fid frame = frame) := by
  refine ⟨rfl, rfl, fun dets h => ?_⟩
  show (gogAccepted dets confidence fid).foldl _ frame = frame
  rw [h]
  rfl

/-- Witness for `C7_frame_ownership`: on an empty detection list the `owl.py`
frame survives the cycle unchanged. -/
theorem C7_frame_ownership_witness :
    owlGogCycleFrameAfter (some []) 0 0 [[(1, 1, 1)]] = [[(1, 1, 1)]] :=
  (C7_frame_ownership [[(1, 1, 1)]] [] 0 0 0).2.2 [] rfl

end Owl

namespace Owl

lemma pyInt_nonneg_eq_floor (q : ℚ) (h : 0 ≤ q) : pyInt q = ⌊q⌋ := if_pos h

lemma pyInt_add_half_bounds (a b : ℤ) (ha : 0 ≤ a) (hb : 0 ≤ b) :
    a ≤ pyInt ((a : ℚ) + (b : ℚ) / 2) ∧ pyInt ((a : ℚ) + (b : ℚ) / 2) ≤ a + b := by
  have ha2 : (0 : ℚ) ≤ (a : ℚ) := by exact_mod_cast ha
  have hb2 : (0 : ℚ) ≤ (b : ℚ) := by exact_mod_cast hb
  have hhalf : (0 : ℚ) ≤ (b : ℚ) / 2 := by linarith
  rw [pyInt_nonneg_eq_floor _ (by linarith), Int.floor_int_add]
  have h1 : 0 ≤ ⌊(b : ℚ) / 2⌋ := Int.floor_nonneg.mpr hhalf
  have h2 : ⌊(b : ℚ) / 2⌋ ≤ b := by
    calc ⌊(b : ℚ) / 2⌋ ≤ ⌊(b : ℚ)⌋ := Int.floor_le_floor (by linarith)
    _ = b := Int.floor_intCast b
  omega

lemma gogBox_nonneg (d : RawDet) (W H : ℕ) (hx0 : 0 ≤ d.xmin) (hx : d.xmin ≤ d.xmax)
    (hy0 : 0 ≤ d.ymin) (hy : d.ymin ≤ d.ymax) :
    0 ≤ (gogBox d W H).1 ∧ 0 ≤ (gogBox d W H).2.1
    ∧ 0 ≤ (gogBox d W H).2.2.1 ∧ 0 ≤ (gogBox d W H).2.2.2 := by
  have hW : (0 : ℚ) ≤ (W : ℚ) := Nat.cast_nonneg W
  have hH : (0 : ℚ) ≤ (H : ℚ) := Nat.cast_nonneg H
  have e1 : (0 : ℚ) ≤ d.xmin * W := mul_nonneg hx0 hW
  have e2 : (0 : ℚ) ≤ d.ymin * H := mul_nonneg hy0 hH
  have e3 : d.xmin * (W : ℚ) ≤ d.xmax * W := mul_le_mul_of_nonneg_right hx hW
  have e4 : d.ymin * (H : ℚ) ≤ d.ymax * H := mul_le_mul_of_nonneg_right hy hH
  simp only [gogBox]
  rw [pyInt_nonneg_eq_floor _ e1, pyInt_nonneg_eq_floor _ e2,
    pyInt_nonneg_eq_floor _ (le_trans e1 e3), pyInt_nonneg_eq_floor _ (le_trans e2 e4)]
  refine ⟨Int.floor_nonneg.mpr e1, Int.floor_nonneg.mpr e2, ?_, ?_⟩
  · simp only [sub_nonneg]
    exact Int.floor_le_floor e3
  · simp only [sub_nonneg]
    exact Int.floor_le_floor e4

lemma gogCentre_in_gogBox (d : RawDet) (W H : ℕ) (hx0 : 0 ≤ d.xmin)
    (hx : d.xmin ≤ d.xmax) (hy0 : 0 ≤ d.ymin) (hy : d.ymin ≤ d.ymax) :
    (gogBox d W H).1 ≤ (gogCentre d W H).1
    ∧ (gogCentre d W H).1 ≤ (gogBox d W H).1 + (gogBox d W H).2.2.1
    ∧ (gogBox d W H).2.1 ≤ (gogCentre d W H).2
    ∧ (gogCentre d W H).2 ≤ (gogBox d W H).2.1 + (gogBox d W H).2.2.2 := by
  obtain ⟨b1, b2, b3, b4⟩ := gogBox_nonneg d W H hx0 hx hy0 hy
  have hcx := pyInt_add_half_bounds (gogBox d W H).1 (gogBox d W H).2.2.1 b1 b3
  have hcy := pyInt_add_half_bounds (gogBox d W H).2.1 (gogBox d W H).2.2.2 b2 b4
  exact ⟨hcx.1, hcx.2, hcy.1, hcy.2⟩

/-- Claim C9: in both detection variants the boxes and centroids are
index-aligned (same length, same order: both are maps over the same filtered
list), and each centroid — `(x + w/2, y + h/2)` with integer truncation —
lies within its own box.  For the learned-detector variant this holds for
every output whose normalised corners satisfy
`0 ≤ xmin ≤ xmax` and `0 ≤ ymin ≤ ymax`. -/
theorem C9_centroid_box_alignment :
    (∀ (img : Image) (cnts : List Contour) (minArea : ℚ),
      (green_on_brown img cnts minArea).2.1 = gobBoxes cnts minArea
      ∧ (green_on_brown img cnts minArea).2.2.1 = gobCentres cnts minArea
      ∧ (gobBoxes cnts minArea).length = (gobCentres cnts minArea).length
      ∧ (∀ (i : ℕ) (h1 : i < (gobBoxes cnts minArea).length)
          (h2 : i < (gobCentres cnts minArea).length),
          ((gobBoxes cnts minArea).get ⟨i, h1⟩).1
              ≤ ((gobCentres cnts minArea).get ⟨i, h2⟩).1
          ∧ ((gobCentres cnts minArea).get ⟨i, h2⟩).1
              ≤ ((gobBoxes cnts minArea).get ⟨i, h1⟩).1
                + ((gobBoxes cnts minArea).get ⟨i, h1⟩).2.2.1
          ∧ ((gobBoxes cnts minArea).get ⟨i, h1⟩).2.1
              ≤ ((gobCentres cnts minArea).get ⟨i, h2⟩).2
          ∧ ((gobCentres cnts minArea).get ⟨i, h2⟩).2
              ≤ ((gobBoxes cnts minArea).get ⟨i, h1⟩).2.1
                + ((gobBoxes cnts minArea).get ⟨i, h1⟩).2.2.2))
    ∧ (∀ (dets : List RawDet) (confidence : ℚ) (fid : ℕ) (img : Image),
      (∀ d ∈ dets, 0 ≤ d.xmin ∧ d.xmin ≤ d.xmax ∧ 0 ≤ d.ymin ∧ d.ymin ≤ d.ymax) →
      (gogInference (some dets) confidence fid img).2.1
          = (gogAccepted dets confidence fid).map
              (fun d => gogBox d ((img.headD []).length) img.length)
      ∧ (gogInference (some dets) confidence fid img).2.2.1
          = (gogAccepted dets confidence fid).map
              (fun d => gogCentre d ((img.headD []).length) img.length)
      ∧ ((gogInference (some dets) confidence fid img).2.1).length
          = ((gogInference (some dets) confidence fid img).2.2.1).length
      ∧ (∀ (i : ℕ)
          (h1 : i < ((gogAccepted dets confidence fid).map
              (fun d => gogBox d ((img.headD []).length) img.length)).length)
          (h2 : i < ((gogAccepted dets confidence fid).map
              (fun d => gogCentre d ((img.headD []).length) img.length)).length),
          (((gogAccepted dets confidence fid).map
              (fun d => gogBox d ((img.headD []).length) img.length)).get ⟨i, h1⟩).1
              ≤ (((gogAccepted dets confidence fid).map
              (fun d => gogCentre d ((img.headD []).length) img.length)).get ⟨i, h2⟩).1
          ∧ (((gogAccepted dets confidence fid).map
              (fun d => gogCentre d ((img.headD []).length) img.length)).get ⟨i, h2⟩).1
              ≤ (((gogAccepted dets confidence fid).map
              (fun d => gogBox d ((img.headD []).length) img.length)).get ⟨i, h1⟩).1
                + (((gogAccepted dets confidence fid).map
              (fun d => gogBox d ((img.headD []).length) img.length)).get ⟨i, h1⟩).2.2.1
          ∧ (((gogAccepted dets confidence fid).map
              (fun d => gogBox d ((img.headD []).length) img.length)).get ⟨i, h1⟩).2.1
              ≤ (((gogAccepted dets confidence fid).map
              (fun d => gogCentre d ((img.headD []).length) img.length)).get ⟨i, h2⟩).2
          ∧ (((gogAccepted dets confidence fid).map
              (fun d => gogCentre d ((img.headD []).length) img.length)).get ⟨i, h2⟩).2
              ≤ (((gogAccepted dets confidence fid).map
              (fun d => gogBox d ((img.headD []).length) img.length)).get ⟨i, h1⟩).2.1
                + (((gogAccepted dets confidence fid).map
              (fun d => gogBox d ((img.headD []).length) img.length)).get
                    ⟨i, h1⟩).2.2.2)) := by
  constructor
  · intro img cnts minArea
    refine ⟨rfl, rfl, by simp [gobBoxes, gobCentres], ?_⟩
    intro i h1 h2
    have hi : i < (gobSurvivors cnts minArea).length := by
      simpa [gobBoxes] using h1
    simp only [gobBoxes, gobCentres, List.get_eq_getElem, List.getElem_map]
    have hw := Nat.div_le_self ((gobSurvivors cnts minArea)[i]).w 2
    have hh := Nat.div_le_self ((gobSurvivors cnts minArea)[i]).h 2
    refine ⟨Nat.le_add_right _ _, by omega, Nat.le_add_right _ _, by omega⟩
  · intro dets confidence fid img hmono
    refine ⟨rfl, rfl, ?_, ?_⟩
    · show ((gogAccepted dets confidence fid).map
          (fun d => gogBox d ((img.headD []).length) img.length)).length
        = ((gogAccepted dets confidence fid).map
          (fun d => gogCentre d ((img.headD []).length) img.length)).length
      simp
    intro i h1 h2
    have hlen : i < (gogAccepted dets confidence fid).length := by
      simpa using h1
    have hmem : (gogAccepted dets confidence fid)[i] ∈ dets := by
      have hin : (gogAccepted dets confidence fid)[i] ∈ gogAccepted dets confidence fid :=
        List.getElem_mem hlen
      exact List.mem_of_mem_filter hin
    obtain ⟨hx0, hx, hy0, hy⟩ := hmono _ hmem
    have key := gogCentre_in_gogBox ((gogAccepted dets confidence fid)[i])
      ((img.headD []).length) img.length hx0 hx hy0 hy
    simp only [List.get_eq_getElem, List.getElem_map]
    exact key

end Owl

namespace Owl

/-- Witness for `C9_centroid_box_alignment`: the contour with area 5 and rect
(1, 2, 3, 4) gives centroid x-coordinate 2 inside `[1, 4]`, and the accepted
unit-square detection on a 1×1 frame gives a centroid inside its box. -/
theorem C9_centroid_box_alignment_witness :
    (((gobBoxes [⟨5, 1, 2, 3, 4⟩] 1).get ⟨0, by decide⟩).1
        ≤ ((gobCentres [⟨5, 1, 2, 3, 4⟩] 1).get ⟨0, by decide⟩).1)
    ∧ ((((gogAccepted [⟨0, 0, 1, 1, 1, 0⟩] 0 0).map
          (fun d => gogBox d ((([[(1, 1, 1)]] : Image).headD []).length)
            ([[(1, 1, 1)]] : Image).length)).get ⟨0, by decide⟩).1
        ≤ (((gogAccepted [⟨0, 0, 1, 1, 1, 0⟩] 0 0).map
          (fun d => gogCentre d ((([[(1, 1, 1)]] : Image).headD []).length)
            ([[(1, 1, 1)]] : Image).length)).get ⟨0, by decide⟩).1) := by
  constructor
  · exact ((C9_centroid_box_alignment.1 [] [⟨5, 1, 2, 3, 4⟩] 1).2.2.2 0
      (by decide) (by decide)).1
  · exact ((C9_centroid_box_alignment.2 [⟨0, 0, 1, 1, 1, 0⟩] 0 0 [[(1, 1, 1)]]
      (by decide)).2.2.2 0 (by decide) (by decide)).1

end Owl
